import Mathlib

/-! Verification of the VenturaEngine actor/observable core against the code in
src/src/engine/core/renderable.ts and src/src/game/gameActors/ventureBank.ts.
JavaScript numbers are embedded as rationals; fallible property accesses
(JS undefined access) are embedded as Option.
-/

set_option autoImplicit false

/-- Modelled from the spec: the engine's Observable class (src file
engine/core/observable.ts is absent from the source drop). It holds the
current value; setValue replaces it and synchronously notifies every
subscriber, including on value-unchanged calls; adjust d is
setValue (getValue + d). We record the number of notification rounds
fired instead of the opaque subscriber callbacks. -/
structure NumObservable where
  value : ℚ
  notifyCount : Nat
  deriving Repr, DecidableEq

def NumObservable.mk0 (v : ℚ) : NumObservable := ⟨v, 0⟩

def NumObservable.getValue (o : NumObservable) : ℚ := o.value

def NumObservable.setValue (o : NumObservable) (v : ℚ) : NumObservable :=
  ⟨v, o.notifyCount + 1⟩

def NumObservable.adjust (o : NumObservable) (d : ℚ) : NumObservable :=
  o.setValue (o.getValue + d)

/-- The purchase modes from ventureBank.ts, with their numeric enum values. -/
inductive PurchaseMode where
  | ONE
  | TEN
  | HUNDRED
  | MAX
  deriving Repr, DecidableEq

def PurchaseMode.toInt : PurchaseMode → Int
  | .ONE => 1
  | .TEN => 10
  | .HUNDRED => 100
  | .MAX => -1

/-- Modelled from the spec: Engine.localStorage, a synchronous key-value
store with setValue and getNumber with a default (the Engine source file is
absent from the source drop). Embedded as an association list where the most
recent write for a key is found first. -/
abbrev KVStore := List (String × ℚ)

def KVStore.empty : KVStore := []

def KVStore.setValue (s : KVStore) (k : String) (v : ℚ) : KVStore := (k, v) :: s

def KVStore.rawLookup : KVStore → String → Option ℚ
  | [], _ => none
  | (k1, v) :: rest, k => if k = k1 then some v else KVStore.rawLookup rest k

/-- Modelled from the spec: getNumber(key, default) returns the stored
number for the key, or the supplied default when the key is absent; it
never throws. -/
def KVStore.getNumber (s : KVStore) (k : String) (d : ℚ) : ℚ :=
  (s.rawLookup k).getD d

/-- The persisted observable state of a VentureBank: its balance and
global profit multiplier observables (ventureBank.ts fields). -/
structure BankCore where
  balance : NumObservable
  globalProfitMultiplier : NumObservable
  deriving Repr, DecidableEq

/-- A fresh bank as the VentureBank constructor creates its observables:
balance starts at 0, globalProfitMultiplier at 1. -/
def BankCore.fresh : BankCore :=
  { balance := NumObservable.mk0 0, globalProfitMultiplier := NumObservable.mk0 1 }

/-- VentureBank.save (ventureBank.ts lines 139-143): writes Balance and
then GlobalProfitMultiplier into local storage. -/
def bankSave (bank : BankCore) (s : KVStore) : KVStore :=
  (s.setValue "Balance" bank.balance.getValue).setValue
    "GlobalProfitMultiplier" bank.globalProfitMultiplier.getValue

/-- VentureBank.restore (ventureBank.ts lines 148-152): reads Balance with
default 0 and GlobalProfitMultiplier with default 1 from local storage. -/
def bankRestore (bank : BankCore) (s : KVStore) : BankCore :=
  { bank with
    balance := bank.balance.setValue (s.getNumber "Balance" 0),
    globalProfitMultiplier :=
      bank.globalProfitMultiplier.setValue (s.getNumber "GlobalProfitMultiplier" 1) }

/-- A business as seen by the bank's cycle-completion handler: only its
profit is read (ventureBank.ts line 103). -/
structure BusinessView where
  profit : ℚ
  deriving Repr, DecidableEq

/-- The handler the VentureBank constructor subscribes to
GameEvent.ON_CYCLE_COMPLETE (ventureBank.ts line 103): it adjusts the
balance by the business's profit. -/
def onCycleComplete (bank : BankCore) (business : BusinessView) : BankCore :=
  { bank with balance := bank.balance.adjust business.profit }

/-- Modelled from the spec: the GameEvent bus for one event kind holds an
ordered subscriber list; publish invokes every handler synchronously in
subscription order (the gameEvents source file is absent from the source
drop). -/
abbrev CycleBus := List (BankCore → BusinessView → BankCore)

def publishCycleComplete (bus : CycleBus) (business : BusinessView) (bank : BankCore) : BankCore :=
  bus.foldl (fun st h => h st business) bank

/-- The ON_CYCLE_COMPLETE subscriber list right after the VentureBank
constructor runs: exactly the one handler registered at line 103. -/
def bankCycleBus : CycleBus := [onCycleComplete]

/-- A 3-component vector of rationals. Modelled from the spec for the
Transform sub-observables (engine/math/transform.ts is absent from the
source drop): position and scale use x and y, rotation uses z
(renderable.ts reads transform.rotation.z). -/
structure Vec3 where
  x : ℚ
  y : ℚ
  z : ℚ
  deriving Repr, DecidableEq

/-- The transform fields of a PIXI container that renderable.ts writes:
position x/y, scale x/y, rotation. -/
structure PixiTransform where
  posX : ℚ
  posY : ℚ
  scaleX : ℚ
  scaleY : ℚ
  rotation : ℚ
  deriving Repr, DecidableEq

/-- The backend PIXI container. The rendering library is opaque; rest
stands for all backend container state other than the transform fields,
and alive tracks whether destroy has been called on it. -/
structure PixiContainer where
  transform : PixiTransform
  rest : Nat
  alive : Bool
  deriving Repr, DecidableEq

/-- Modelled from the spec: the engine Transform owns three observable
sub-values, position, scale and rotation. -/
structure TransformM where
  position : Vec3
  scale : Vec3
  rotation : Vec3
  deriving Repr, DecidableEq

/-- The three synchronization callbacks of renderable.ts. -/
inductive SyncCallback where
  | onPositionChanged
  | onScaleChanged
  | onRotationChanged
  deriving Repr, DecidableEq

/-- A subscription entry (context object identity, callback), as passed to
onComponentChanged.subscribe in the Renderable constructor. -/
structure Subscription where
  context : Nat
  callback : SyncCallback
  deriving Repr, DecidableEq

/-- Resource lifecycle events, used to record allocation and destruction
order. -/
inductive ResourceEvent where
  | allocContainer
  | allocTransform
  | destroyContainer
  | destroyTransform
  deriving Repr, DecidableEq

/-- The state of one Renderable (renderable.ts): its backend container,
its Transform, the subscriber lists of the three transform sub-observables,
an instrumentation counter of synchronization-callback runs, and the
resource event log. -/
structure RenderableState where
  id : Nat
  container : PixiContainer
  transform : TransformM
  positionSubs : List Subscription
  scaleSubs : List Subscription
  rotationSubs : List Subscription
  syncCalls : Nat
  log : List ResourceEvent
  deriving Repr, DecidableEq

/-- Runs one synchronization callback of renderable.ts (lines 47-65):
onPositionChanged copies transform.position.x/y into the container
position, onScaleChanged copies transform.scale.x/y into the container
scale, onRotationChanged copies transform.rotation.z into the container
rotation. syncCalls counts the runs. -/
def runCallback (cb : SyncCallback) (r : RenderableState) : RenderableState :=
  match cb with
  | .onPositionChanged =>
      { r with
        container.transform.posX := r.transform.position.x,
        container.transform.posY := r.transform.position.y,
        syncCalls := r.syncCalls + 1 }
  | .onScaleChanged =>
      { r with
        container.transform.scaleX := r.transform.scale.x,
        container.transform.scaleY := r.transform.scale.y,
        syncCalls := r.syncCalls + 1 }
  | .onRotationChanged =>
      { r with
        container.transform.rotation := r.transform.rotation.z,
        syncCalls := r.syncCalls + 1 }

/-- Modelled from the spec: an observable change notifies all current
subscribers synchronously, in subscription order. -/
def notifyAll (subs : List Subscription) (r : RenderableState) : RenderableState :=
  subs.foldl (fun s sub => runCallback sub.callback s) r

/-- Modelled from the spec: setting the Transform's position observable
replaces the value and fires one notification round to its subscribers. -/
def setTransformPosition (r : RenderableState) (v : Vec3) : RenderableState :=
  let r1 := { r with transform.position := v }
  notifyAll r1.positionSubs r1

/-- Modelled from the spec: setting the Transform's scale observable. -/
def setTransformScale (r : RenderableState) (v : Vec3) : RenderableState :=
  let r1 := { r with transform.scale := v }
  notifyAll r1.scaleSubs r1

/-- Modelled from the spec: setting the Transform's rotation observable. -/
def setTransformRotation (r : RenderableState) (v : Vec3) : RenderableState :=
  let r1 := { r with transform.rotation := v }
  notifyAll r1.rotationSubs r1

/-- A freshly allocated PIXI container (opaque defaults). -/
def freshContainer : PixiContainer :=
  { transform := ⟨0, 0, 1, 1, 0⟩, rest := 0, alive := true }

/-- A freshly allocated Transform (identity values). -/
def freshTransform : TransformM :=
  { position := ⟨0, 0, 0⟩, scale := ⟨1, 1, 1⟩, rotation := ⟨0, 0, 0⟩ }

/-- The Renderable constructor (renderable.ts lines 27-34): allocates one
container and one Transform, then subscribes itself (this as context) to
position, scale and rotation changes with the matching callback. -/
def mkRenderable (id : Nat) : RenderableState :=
  { id := id,
    container := freshContainer,
    transform := freshTransform,
    positionSubs := [⟨id, .onPositionChanged⟩],
    scaleSubs := [⟨id, .onScaleChanged⟩],
    rotationSubs := [⟨id, .onRotationChanged⟩],
    syncCalls := 0,
    log := [.allocContainer, .allocTransform] }

/-- container.destroy(): marks the backend container released and logs the
event. -/
def containerDestroy (r : RenderableState) : RenderableState :=
  { r with container.alive := false, log := r.log ++ [.destroyContainer] }

/-- Modelled from the spec: transform.destroy() releases all three
observables' subscriber lists; logged as one event. -/
def transformDestroy (r : RenderableState) : RenderableState :=
  { r with
    positionSubs := [],
    scaleSubs := [],
    rotationSubs := [],
    log := r.log ++ [.destroyTransform] }

/-- Renderable.destroy (renderable.ts lines 39-42): destroys the container
first, then the transform. -/
def renderableDestroy (r : RenderableState) : RenderableState :=
  transformDestroy (containerDestroy r)

/-- The measured balance-text element as read in VentureBank.load:
transform.position.y and container.height (a backend-measured size). -/
structure MeasuredText where
  posY : ℚ
  height : ℚ
  deriving Repr, DecidableEq

/-- A manager button as VentureBank.load touches it: its measured backend
container height and the transform fields the loop writes (uniform scale
via scale.set, and position.y). -/
structure LayoutButton where
  containerHeight : ℚ
  scaleX : ℚ
  scaleY : ℚ
  posY : ℚ
  deriving Repr, DecidableEq

/-- The managerButtons dictionary (a JS object mapping business name to
button). Property access on a missing key yields undefined, embedded as
none. -/
abbrev ButtonDict := List (String × LayoutButton)

/-- JS object property read: managerButtons[name]. -/
def lookupBtn : ButtonDict → String → Option LayoutButton
  | [], _ => none
  | (k1, v) :: rest, k => if k = k1 then some v else lookupBtn rest k

/-- JS object property write: managerButtons[name] = button. The newest
write for a key shadows older ones in lookupBtn. -/
def setBtn (d : ButtonDict) (k : String) (v : LayoutButton) : ButtonDict :=
  (k, v) :: d

/-- The layout loop of VentureBank.load (ventureBank.ts lines 128-133):
for each business in order, look its button up, set a uniform scale and
the current spawn height, then advance the spawn height by
heightPerButton. A missing button is a fatal undefined access, embedded
as none. -/
def layoutLoop (sf hpb : ℚ) : List String → ℚ → ButtonDict → Option ButtonDict
  | [], _, d => some d
  | n :: rest, sh, d =>
    match lookupBtn d n with
    | none => none
    | some b =>
        layoutLoop sf hpb rest (sh + hpb)
          (setBtn d n { b with scaleX := sf, scaleY := sf, posY := sh })

/-- VentureBank.load (ventureBank.ts lines 112-134): startingHeight is the
balance text's y plus its measured height, availableRoom is the window
height minus that, heightPerButton divides the room evenly, the scale
factor comes from the first business's button height, and the loop places
the buttons. businesses[0] on an empty array and a missing manager button
are fatal undefined accesses, embedded as none. -/
def bankLoad (windowInnerHeight : ℚ) (balanceText : MeasuredText)
    (businesses : List String) (managerButtons : ButtonDict) : Option ButtonDict :=
  let startingHeight := balanceText.posY + balanceText.height
  let availableRoom := windowInnerHeight - startingHeight
  let heightPerButton := availableRoom / (businesses.length : ℚ)
  match businesses.head? with
  | none => none
  | some firstName =>
    match lookupBtn managerButtons firstName with
    | none => none
    | some firstButton =>
        layoutLoop (heightPerButton / firstButton.containerHeight) heightPerButton
          businesses startingHeight managerButtons

/-- One business record from the game configuration, as consumed by
VentureBank (name, icon asset, manager cost). -/
structure VentureBusinessData where
  name : String
  icon : String
  managerCost : ℚ
  deriving Repr, DecidableEq

/-- The base manager-button data from the bank configuration; labels is
optional in the source (the nullish-coalescing at line 165). -/
structure BankButtonData where
  labels : Option (List String)
  deriving Repr, DecidableEq

/-- A constructed manager Button, recording the data it was built from and
the names of the display components attached to it. -/
structure ButtonM where
  name : String
  labels : List String
  componentNames : List String
  deriving Repr, DecidableEq

/-- One iteration body of createManagerButtons (ventureBank.ts lines
158-207): build the button data on the base data with the business name
and a defaulted labels array, then attach the icon sprite, the title
label and the price label. -/
def mkManagerButton (base : BankButtonData) (biz : VentureBusinessData) : ButtonM :=
  { name := biz.name,
    labels := base.labels.getD [],
    componentNames :=
      [biz.name ++ "ManagerIcon", biz.name ++ "ManagerButton", biz.name ++ "ManagerPrice"] }

/-- The manager-button dictionary of the bank (JS object, name to button). -/
abbrev MgrDict := List (String × ButtonM)

/-- JS object property read on the managerButtons field. -/
def lookupMgr : MgrDict → String → Option ButtonM
  | [], _ => none
  | (k1, v) :: rest, k => if k = k1 then some v else lookupMgr rest k

/-- The createManagerButtons loop (ventureBank.ts lines 157-209): for each
business in order, create the button, store it under the business name
(overwriting any earlier entry for that name) and append it to the child
actors. -/
def createManagerButtons (base : BankButtonData) :
    List VentureBusinessData → MgrDict → List ButtonM → MgrDict × List ButtonM
  | [], dict, children => (dict, children)
  | biz :: rest, dict, children =>
      let btn := mkManagerButton base biz
      createManagerButtons base rest ((biz.name, btn) :: dict) (children ++ [btn])

/-- The bank configuration data (VentureBankData). -/
structure VentureBankData where
  baseManagerButtonData : BankButtonData
  businesses : List VentureBusinessData
  deriving Repr, DecidableEq

/-- The observable state of a VentureBank right after construction. -/
structure VentureBankState where
  balance : NumObservable
  globalProfitMultiplier : NumObservable
  purchaseMode : PurchaseMode
  managerButtons : MgrDict
  children : List ButtonM
  deriving Repr, DecidableEq

/-- The VentureBank constructor (ventureBank.ts lines 83-106): creates the
purchaseMode (ONE), globalProfitMultiplier (1) and balance (0)
observables and the empty managerButtons dictionary, fires one initial
balance notification via balance.adjust(0), subscribes the cycle handler,
and runs createManagerButtons. -/
def mkVentureBank (data : VentureBankData) : VentureBankState :=
  let balance0 := (NumObservable.mk0 0).adjust 0
  let built := createManagerButtons data.baseManagerButtonData data.businesses [] []
  { balance := balance0,
    globalProfitMultiplier := NumObservable.mk0 1,
    purchaseMode := PurchaseMode.ONE,
    managerButtons := built.1,
    children := built.2 }

/-- Claim C2: save() followed by restore() on a fresh bank over the same
store reproduces the balance and multiplier that were written, and when
neither key was ever persisted, restore() yields balance 0 and multiplier
1, the defaults passed to getNumber. -/
theorem bank_save_restore_roundtrip :
    (∀ (bankW bankF : BankCore) (s : KVStore),
      (bankRestore bankF (bankSave bankW s)).balance.value = bankW.balance.value ∧
      (bankRestore bankF (bankSave bankW s)).globalProfitMultiplier.value
        = bankW.globalProfitMultiplier.value) ∧
    (∀ s : KVStore, s.rawLookup "Balance" = none →
      s.rawLookup "GlobalProfitMultiplier" = none →
      (bankRestore BankCore.fresh s).balance.value = 0 ∧
      (bankRestore BankCore.fresh s).globalProfitMultiplier.value = 1) := by
  constructor
  · intro bankW bankF s
    simp [bankRestore, bankSave, KVStore.setValue, KVStore.getNumber, KVStore.rawLookup,
      NumObservable.setValue, NumObservable.getValue]
  · intro s hb hm
    simp [bankRestore, KVStore.getNumber, hb, hm, NumObservable.setValue]

/-- Witness for C2: the roundtrip and the no-prior-save default case at
concrete inputs. -/
theorem bank_save_restore_roundtrip_witness :
    ((bankRestore BankCore.fresh (bankSave ⟨⟨5, 3⟩, ⟨2, 1⟩⟩ KVStore.empty)).balance.value = 5 ∧
      (bankRestore BankCore.fresh
        (bankSave ⟨⟨5, 3⟩, ⟨2, 1⟩⟩ KVStore.empty)).globalProfitMultiplier.value = 2) ∧
    ((bankRestore BankCore.fresh KVStore.empty).balance.value = 0 ∧
      (bankRestore BankCore.fresh KVStore.empty).globalProfitMultiplier.value = 1) :=
  ⟨bank_save_restore_roundtrip.1 ⟨⟨5, 3⟩, ⟨2, 1⟩⟩ BankCore.fresh KVStore.empty,
    bank_save_restore_roundtrip.2 KVStore.empty rfl rfl⟩

/-- Claim C3: publishing one ON_CYCLE_COMPLETE event on the bus as the
bank constructor leaves it runs the subscribed handler exactly once: the
balance becomes the old balance plus the business's profit, the balance
observable fires exactly one notification round (no re-entrancy or
duplicate increment), and the multiplier is untouched. -/
theorem publish_cycle_complete_adds_profit (bank : BankCore) (business : BusinessView) :
    (publishCycleComplete bankCycleBus business bank).balance.value
      = bank.balance.value + business.profit ∧
    (publishCycleComplete bankCycleBus business bank).balance.notifyCount
      = bank.balance.notifyCount + 1 ∧
    (publishCycleComplete bankCycleBus business bank).globalProfitMultiplier
      = bank.globalProfitMultiplier := by
  simp [publishCycleComplete, bankCycleBus, onCycleComplete,
    NumObservable.adjust, NumObservable.setValue, NumObservable.getValue]

/-- Claim C8: every read in restore() goes through getNumber with an
explicit default (0 for Balance, 1 for GlobalProfitMultiplier), so for
every store state restore() completes with defined values, and with an
absent key it degrades to the default. -/
theorem bank_restore_absent_key_defaults (s : KVStore) (bank : BankCore) :
    ((bankRestore bank s).balance.value = s.getNumber "Balance" 0 ∧
      (bankRestore bank s).globalProfitMultiplier.value
        = s.getNumber "GlobalProfitMultiplier" 1) ∧
    (s.rawLookup "Balance" = none → (bankRestore bank s).balance.value = 0) ∧
    (s.rawLookup "GlobalProfitMultiplier" = none →
      (bankRestore bank s).globalProfitMultiplier.value = 1) := by
  refine ⟨⟨rfl, rfl⟩, ?_, ?_⟩
  · intro hb
    simp [bankRestore, KVStore.getNumber, hb, NumObservable.setValue]
  · intro hm
    simp [bankRestore, KVStore.getNumber, hm, NumObservable.setValue]

/-- Witness for C8: a store holding only an unrelated key has neither
persisted key, and restore() yields the defaults 0 and 1. -/
theorem bank_restore_absent_key_defaults_witness :
    (bankRestore BankCore.fresh [("SomethingElse", 7)]).balance.value = 0 ∧
    (bankRestore BankCore.fresh [("SomethingElse", 7)]).globalProfitMultiplier.value = 1 :=
  ⟨(bank_restore_absent_key_defaults [("SomethingElse", 7)] BankCore.fresh).2.1 (by decide),
    (bank_restore_absent_key_defaults [("SomethingElse", 7)] BankCore.fresh).2.2 (by decide)⟩

/-- Claim C5: constructing a Renderable allocates exactly one backend
container and one Transform (the allocation log is exactly those two
events), and registers exactly three change subscriptions, one per
transform sub-observable, each carrying the matching synchronization
callback with the Renderable itself as context. -/
theorem mk_renderable_allocations_and_subscriptions (id : Nat) :
    (mkRenderable id).log = [ResourceEvent.allocContainer, ResourceEvent.allocTransform] ∧
    (mkRenderable id).positionSubs = [⟨id, SyncCallback.onPositionChanged⟩] ∧
    (mkRenderable id).scaleSubs = [⟨id, SyncCallback.onScaleChanged⟩] ∧
    (mkRenderable id).rotationSubs = [⟨id, SyncCallback.onRotationChanged⟩] ∧
    (mkRenderable id).positionSubs.length + (mkRenderable id).scaleSubs.length
      + (mkRenderable id).rotationSubs.length = 3 ∧
    (mkRenderable id).container = freshContainer ∧
    (mkRenderable id).transform = freshTransform :=
  ⟨rfl, rfl, rfl, rfl, rfl, rfl, rfl⟩

/-- Claim C6: one call to destroy() releases both owned resources, the
backend container first and the Transform second, in that order (the
event log grows by exactly destroyContainer then destroyTransform, the
container is marked released and the transform subscriber lists are
emptied). -/
theorem renderable_destroy_order (r : RenderableState) :
    (renderableDestroy r).log
      = r.log ++ [ResourceEvent.destroyContainer, ResourceEvent.destroyTransform] ∧
    (renderableDestroy r).container.alive = false ∧
    (renderableDestroy r).positionSubs = [] ∧
    (renderableDestroy r).scaleSubs = [] ∧
    (renderableDestroy r).rotationSubs = [] := by
  simp [renderableDestroy, containerDestroy, transformDestroy]

/-- Claim C4: with the subscriptions as the Renderable constructor wires
them, each transform change runs exactly one synchronization callback
(syncCalls grows by exactly 1) and that callback copies the transform's
current values into the corresponding backend container fields: position
x/y, scale x/y, and rotation from z. -/
theorem transform_change_syncs_once (r : RenderableState) (v : Vec3)
    (hp : r.positionSubs = [⟨r.id, SyncCallback.onPositionChanged⟩])
    (hs : r.scaleSubs = [⟨r.id, SyncCallback.onScaleChanged⟩])
    (hr : r.rotationSubs = [⟨r.id, SyncCallback.onRotationChanged⟩]) :
    ((setTransformPosition r v).syncCalls = r.syncCalls + 1 ∧
      (setTransformPosition r v).container.transform.posX = v.x ∧
      (setTransformPosition r v).container.transform.posY = v.y) ∧
    ((setTransformScale r v).syncCalls = r.syncCalls + 1 ∧
      (setTransformScale r v).container.transform.scaleX = v.x ∧
      (setTransformScale r v).container.transform.scaleY = v.y) ∧
    ((setTransformRotation r v).syncCalls = r.syncCalls + 1 ∧
      (setTransformRotation r v).container.transform.rotation = v.z) := by
  refine ⟨?_, ?_, ?_⟩ <;>
    simp [setTransformPosition, setTransformScale, setTransformRotation,
      notifyAll, hp, hs, hr, runCallback]

/-- Witness for C4: the freshly constructed Renderable with a concrete
transform change; setting position to (5, 7, 9) makes the container
position (5, 7). -/
theorem transform_change_syncs_once_witness :
    (((setTransformPosition (mkRenderable 0) ⟨5, 7, 9⟩).syncCalls
        = (mkRenderable 0).syncCalls + 1 ∧
      (setTransformPosition (mkRenderable 0) ⟨5, 7, 9⟩).container.transform.posX = 5 ∧
      (setTransformPosition (mkRenderable 0) ⟨5, 7, 9⟩).container.transform.posY = 7) ∧
    ((setTransformScale (mkRenderable 0) ⟨5, 7, 9⟩).syncCalls
        = (mkRenderable 0).syncCalls + 1 ∧
      (setTransformScale (mkRenderable 0) ⟨5, 7, 9⟩).container.transform.scaleX = 5 ∧
      (setTransformScale (mkRenderable 0) ⟨5, 7, 9⟩).container.transform.scaleY = 7) ∧
    ((setTransformRotation (mkRenderable 0) ⟨5, 7, 9⟩).syncCalls
        = (mkRenderable 0).syncCalls + 1 ∧
      (setTransformRotation (mkRenderable 0) ⟨5, 7, 9⟩).container.transform.rotation = 9)) :=
  transform_change_syncs_once (mkRenderable 0) ⟨5, 7, 9⟩ rfl rfl rfl

/-- Claim C7: each synchronization callback mutates only its own container
transform fields: onPositionChanged leaves scale, rotation and all other
backend container state unchanged; onScaleChanged leaves position,
rotation and the rest unchanged; onRotationChanged leaves position, scale
and the rest unchanged. -/
theorem sync_callbacks_frame (r : RenderableState) :
    ((runCallback SyncCallback.onPositionChanged r).container.transform.scaleX
        = r.container.transform.scaleX ∧
      (runCallback SyncCallback.onPositionChanged r).container.transform.scaleY
        = r.container.transform.scaleY ∧
      (runCallback SyncCallback.onPositionChanged r).container.transform.rotation
        = r.container.transform.rotation ∧
      (runCallback SyncCallback.onPositionChanged r).container.rest = r.container.rest ∧
      (runCallback SyncCallback.onPositionChanged r).container.alive = r.container.alive) ∧
    ((runCallback SyncCallback.onScaleChanged r).container.transform.posX
        = r.container.transform.posX ∧
      (runCallback SyncCallback.onScaleChanged r).container.transform.posY
        = r.container.transform.posY ∧
      (runCallback SyncCallback.onScaleChanged r).container.transform.rotation
        = r.container.transform.rotation ∧
      (runCallback SyncCallback.onScaleChanged r).container.rest = r.container.rest ∧
      (runCallback SyncCallback.onScaleChanged r).container.alive = r.container.alive) ∧
    ((runCallback SyncCallback.onRotationChanged r).container.transform.posX
        = r.container.transform.posX ∧
      (runCallback SyncCallback.onRotationChanged r).container.transform.posY
        = r.container.transform.posY ∧
      (runCallback SyncCallback.onRotationChanged r).container.transform.scaleX
        = r.container.transform.scaleX ∧
      (runCallback SyncCallback.onRotationChanged r).container.transform.scaleY
        = r.container.transform.scaleY ∧
      (runCallback SyncCallback.onRotationChanged r).container.rest = r.container.rest ∧
      (runCallback SyncCallback.onRotationChanged r).container.alive = r.container.alive) := by
  simp [runCallback]

theorem createManagerButtons_children (base : BankButtonData)
    (bizs : List VentureBusinessData) (dict : MgrDict) (cs : List ButtonM) :
    (createManagerButtons base bizs dict cs).2 = cs ++ bizs.map (mkManagerButton base) := by
  induction bizs generalizing dict cs with
  | nil => simp [createManagerButtons]
  | cons biz rest ih => simp [createManagerButtons, ih]

/-- First-some choice on options, used to state the managerButtons lookup
through the createManagerButtons accumulator. -/
def optOr (a b : Option ButtonM) : Option ButtonM :=
  match a with
  | some x => some x
  | none => b

theorem createManagerButtons_lookup (base : BankButtonData)
    (bizs : List VentureBusinessData) (dict : MgrDict) (cs : List ButtonM) (n : String) :
    lookupMgr (createManagerButtons base bizs dict cs).1 n
      = optOr ((bizs.reverse.find? (fun b => b.name == n)).map (mkManagerButton base))
        (lookupMgr dict n) := by
  induction bizs generalizing dict cs with
  | nil => simp [createManagerButtons, optOr]
  | cons biz rest ih =>
    rw [createManagerButtons, ih, List.reverse_cons, List.find?_append]
    rcases h : rest.reverse.find? (fun b => b.name == n) with _ | b
    · by_cases hn : biz.name = n
      · subst hn
        simp [h, lookupMgr, optOr, List.find?]
      · have hb : (biz.name == n) = false := by simp [hn]
        simp [h, lookupMgr, optOr, List.find?, hb, Ne.symm hn]
    · simp [h, optOr]

/-- Claim C10: immediately after construction the bank has balance 0,
globalProfitMultiplier 1 and purchaseMode ONE; the balance observable has
fired exactly one notification (the initial balance.adjust(0), despite
the value being unchanged); exactly one manager button per configured
business is created and added as a child, in configuration order; and
looking a name up in managerButtons yields the button built from the
last business with that name (duplicates overwrite earlier entries). -/
theorem venture_bank_initial_state (d : VentureBankData) :
    (mkVentureBank d).balance.value = 0 ∧
    (mkVentureBank d).balance.notifyCount = 1 ∧
    (mkVentureBank d).globalProfitMultiplier.value = 1 ∧
    (mkVentureBank d).purchaseMode = PurchaseMode.ONE ∧
    (mkVentureBank d).children
      = d.businesses.map (mkManagerButton d.baseManagerButtonData) ∧
    ∀ n : String,
      lookupMgr (mkVentureBank d).managerButtons n
        = (d.businesses.reverse.find? (fun b => b.name == n)).map
            (mkManagerButton d.baseManagerButtonData) := by
  refine ⟨by simp [mkVentureBank, NumObservable.adjust, NumObservable.setValue,
      NumObservable.getValue, NumObservable.mk0], rfl, rfl, rfl, ?_, ?_⟩
  · simpa [mkVentureBank] using
      createManagerButtons_children d.baseManagerButtonData d.businesses [] []
  · intro n
    have h := createManagerButtons_lookup d.baseManagerButtonData d.businesses [] [] n
    rcases hf : d.businesses.reverse.find? (fun b => b.name == n) with _ | b <;>
      simp only [hf, optOr, Option.map, lookupMgr] at h <;>
      simpa [mkVentureBank, hf] using h

theorem lookupBtn_setBtn (d : ButtonDict) (k m : String) (v : LayoutButton) :
    lookupBtn (setBtn d k v) m = if m = k then some v else lookupBtn d m := rfl

theorem layoutLoop_untouched (sf hpb : ℚ) :
    ∀ (names : List String) (sh : ℚ) (d out : ButtonDict),
      layoutLoop sf hpb names sh d = some out →
      ∀ m, m ∉ names → lookupBtn out m = lookupBtn d m := by
  intro names
  induction names with
  | nil =>
    intro sh d out h m _
    simp only [layoutLoop, Option.some.injEq] at h
    rw [h]
  | cons n rest ih =>
    intro sh d out h m hm
    rcases hb : lookupBtn d n with _ | b
    · simp only [layoutLoop, hb] at h
      exact Option.noConfusion h
    · simp only [layoutLoop, hb] at h
      have hm1 : m ≠ n := fun he => hm (he ▸ List.mem_cons_self n rest)
      have hm2 : m ∉ rest := fun hc => hm (List.mem_cons_of_mem n hc)
      rw [ih _ _ _ h m hm2, lookupBtn_setBtn, if_neg hm1]

theorem layoutLoop_total (sf hpb : ℚ) :
    ∀ (names : List String) (sh : ℚ) (d : ButtonDict),
      (∀ n ∈ names, (lookupBtn d n).isSome) →
      (layoutLoop sf hpb names sh d).isSome := by
  intro names
  induction names with
  | nil =>
    intro sh d _
    simp [layoutLoop]
  | cons n rest ih =>
    intro sh d hall
    have h0 : (lookupBtn d n).isSome := hall n (List.mem_cons_self n rest)
    rcases hb : lookupBtn d n with _ | b
    · rw [hb] at h0
      simp at h0
    · simp only [layoutLoop, hb]
      refine ih _ _ fun m hm => ?_
      rw [lookupBtn_setBtn]
      split
      · rfl
      · exact hall m (List.mem_cons_of_mem n hm)

theorem layoutLoop_spec (sf hpb : ℚ) :
    ∀ (names : List String) (sh : ℚ) (d : ButtonDict),
      names.Nodup →
      (∀ n ∈ names, (lookupBtn d n).isSome) →
      ∃ out, layoutLoop sf hpb names sh d = some out ∧
        ∀ (i : Nat) (hi : i < names.length) (b : LayoutButton),
          lookupBtn d (names.get ⟨i, hi⟩) = some b →
          lookupBtn out (names.get ⟨i, hi⟩)
            = some { b with scaleX := sf, scaleY := sf, posY := sh + i * hpb } := by
  intro names
  induction names with
  | nil =>
    intro sh d _ _
    exact ⟨d, rfl, fun i hi => absurd hi (Nat.not_lt_zero i)⟩
  | cons n rest ih =>
    intro sh d hnd hall
    have h0 : (lookupBtn d n).isSome := hall n (List.mem_cons_self n rest)
    rcases hb : lookupBtn d n with _ | b0
    · rw [hb] at h0
      simp at h0
    · have hnotin : n ∉ rest := (List.nodup_cons.mp hnd).1
      have hndr : rest.Nodup := (List.nodup_cons.mp hnd).2
      have hall2 : ∀ m ∈ rest,
          (lookupBtn (setBtn d n { b0 with scaleX := sf, scaleY := sf, posY := sh }) m).isSome := by
        intro m hm
        rw [lookupBtn_setBtn]
        split
        · rfl
        · exact hall m (List.mem_cons_of_mem n hm)
      rcases ih (sh + hpb) _ hndr hall2 with ⟨out, hout, hspec⟩
      refine ⟨out, by simp only [layoutLoop, hb]; exact hout, ?_⟩
      intro i hi b hdb
      match i with
      | 0 =>
        simp only [List.get] at hdb ⊢
        rw [hb] at hdb
        injection hdb with hdb
        subst hdb
        have huntouched := layoutLoop_untouched sf hpb rest (sh + hpb) _ out hout n hnotin
        rw [huntouched, lookupBtn_setBtn, if_pos rfl]
        norm_num
      | j + 1 =>
        have hj : j < rest.length := Nat.lt_of_succ_lt_succ hi
        simp only [List.get] at hdb ⊢
        have hne : rest.get ⟨j, hj⟩ ≠ n := fun he => hnotin (he ▸ rest.get_mem j hj)
        have hdb2 : lookupBtn (setBtn d n { b0 with scaleX := sf, scaleY := sf, posY := sh })
            (rest.get ⟨j, hj⟩) = some b := by
          rw [lookupBtn_setBtn, if_neg hne]
          exact hdb
        have := hspec j hj b hdb2
        rw [this]
        have harith : sh + hpb + (j : ℚ) * hpb = sh + ((j : ℚ) + 1) * hpb := by ring
        rw [harith]
        norm_num


/-- A concrete button dictionary for the spec's layout scenario: three
businesses, each manager button with natural container height 200. -/
def demoButtons : ButtonDict :=
  [("alpha", ⟨200, 0, 0, 0⟩), ("beta", ⟨200, 0, 0, 0⟩), ("gamma", ⟨200, 0, 0, 0⟩)]

/-- Claim C1: VentureBank.load lays buttons out by exact division. In
general: available room is the window height minus (text y plus text
height), each of the N buttons gets availableRoom / N, one uniform scale
factor is the per-button slot over the first button's natural height, and
the i-th button lands at startingHeight + i * slot. Concretely, with text
height 80 at y 0, window height 680 and 3 businesses of natural button
height 200: slot 200, scale factor 1, button y positions 80, 280, 480. -/
theorem bank_load_exact_division_layout :
    (∀ (wH : ℚ) (text : MeasuredText) (names : List String) (buttons : ButtonDict)
        (n0 : String) (b0 : LayoutButton),
      names.Nodup →
      names.head? = some n0 →
      lookupBtn buttons n0 = some b0 →
      (∀ n ∈ names, (lookupBtn buttons n).isSome) →
      ∃ out, bankLoad wH text names buttons = some out ∧
        ∀ (i : Nat) (hi : i < names.length) (b : LayoutButton),
          lookupBtn buttons (names.get ⟨i, hi⟩) = some b →
          lookupBtn out (names.get ⟨i, hi⟩) = some
            { b with
              scaleX := ((wH - (text.posY + text.height)) / (names.length : ℚ))
                / b0.containerHeight,
              scaleY := ((wH - (text.posY + text.height)) / (names.length : ℚ))
                / b0.containerHeight,
              posY := (text.posY + text.height)
                + i * ((wH - (text.posY + text.height)) / (names.length : ℚ)) }) ∧
    ((bankLoad 680 ⟨0, 80⟩ ["alpha", "beta", "gamma"] demoButtons).map
        (fun out => (lookupBtn out "alpha", lookupBtn out "beta", lookupBtn out "gamma"))
      = some (some ⟨200, 1, 1, 80⟩, some ⟨200, 1, 1, 280⟩, some ⟨200, 1, 1, 480⟩)) := by
  constructor
  · intro wH text names buttons n0 b0 hnd hhead hb0 hall
    rcases layoutLoop_spec
        (((wH - (text.posY + text.height)) / (names.length : ℚ)) / b0.containerHeight)
        ((wH - (text.posY + text.height)) / (names.length : ℚ))
        names (text.posY + text.height) buttons hnd hall with ⟨out, hout, hspec⟩
    refine ⟨out, ?_, hspec⟩
    simp only [bankLoad, hhead, hb0]
    exact hout
  · norm_num [bankLoad, layoutLoop, lookupBtn, setBtn, demoButtons, List.head?]
    exact ⟨_, rfl, rfl, rfl, rfl⟩

/-- Witness for C1: the general layout law applied to the spec's concrete
scenario (window height 680, text occupying height 80 at y 0, three
buttons of natural height 200). -/
theorem bank_load_exact_division_layout_witness :
    ∃ out, bankLoad 680 ⟨0, 80⟩ ["alpha", "beta", "gamma"] demoButtons = some out ∧
      ∀ (i : Nat) (hi : i < (["alpha", "beta", "gamma"] : List String).length)
          (b : LayoutButton),
        lookupBtn demoButtons ((["alpha", "beta", "gamma"] : List String).get ⟨i, hi⟩)
          = some b →
        lookupBtn out ((["alpha", "beta", "gamma"] : List String).get ⟨i, hi⟩) = some
          { b with
            scaleX := ((680 - ((0 : ℚ) + 80)) / (((["alpha", "beta", "gamma"] : List String).length : ℕ) : ℚ))
              / (200 : ℚ),
            scaleY := ((680 - ((0 : ℚ) + 80)) / (((["alpha", "beta", "gamma"] : List String).length : ℕ) : ℚ))
              / (200 : ℚ),
            posY := ((0 : ℚ) + 80)
              + i * ((680 - ((0 : ℚ) + 80)) / (((["alpha", "beta", "gamma"] : List String).length : ℕ) : ℚ)) } :=
  bank_load_exact_division_layout.1 680 ⟨0, 80⟩ ["alpha", "beta", "gamma"] demoButtons
    "alpha" ⟨200, 0, 0, 0⟩ (by decide) rfl rfl (by decide)

/-- Claim C9: load() performs no defensive configuration check. Under the
precondition that the businesses list is non-empty and every listed
business has a manager button, every access in load() succeeds; with an
empty businesses list the access businesses[0] is an undefined access and
load() is fatal (embedded as none). -/
theorem bank_load_no_defensive_check :
    (∀ (wH : ℚ) (text : MeasuredText) (names : List String) (buttons : ButtonDict),
      names ≠ [] →
      (∀ n ∈ names, (lookupBtn buttons n).isSome) →
      (bankLoad wH text names buttons).isSome) ∧
    (∀ (wH : ℚ) (text : MeasuredText) (buttons : ButtonDict),
      bankLoad wH text [] buttons = none) := by
  constructor
  · intro wH text names buttons hne hall
    match names, hne with
    | n0 :: rest, _ =>
      have h0 : (lookupBtn buttons n0).isSome := hall n0 (List.mem_cons_self n0 rest)
      rcases hb : lookupBtn buttons n0 with _ | b0
      · rw [hb] at h0
        simp at h0
      · simp only [bankLoad, List.head?, hb]
        exact layoutLoop_total _ _ (n0 :: rest) _ buttons hall
  · intro wH text buttons
    rfl

/-- Witness for C9: a valid one-business configuration succeeds, and the
empty-businesses configuration is fatal. -/
theorem bank_load_no_defensive_check_witness :
    (bankLoad 680 ⟨0, 80⟩ ["solo"] [("solo", ⟨200, 0, 0, 0⟩)]).isSome ∧
    bankLoad 680 ⟨0, 80⟩ [] [] = none :=
  ⟨bank_load_no_defensive_check.1 680 ⟨0, 80⟩ ["solo"] [("solo", ⟨200, 0, 0, 0⟩)]
      (by decide) (by decide),
    bank_load_no_defensive_check.2 680 ⟨0, 80⟩ []⟩
